import Mathlib

/-!
Verification of `src/convert_bmp.py`, a command-line BMP-to-PNG converter.

The program is embedded shallowly: the filesystem is a map from paths to
optional byte contents together with a writability predicate; the external
image library (PIL in the source) is an abstract structure of decode and
encode functions; the program itself is a pure function from the argument
vector and the filesystem to a run result recording the lines printed to
standard output, the exit code, the resulting filesystem, and the paths
accessed for reading and writing.
-/

namespace ConvertBmp

/-- File contents, as a sequence of bytes. -/
abbrev Bytes := List Nat

/-- Filesystem paths are strings, exactly as `sys.argv` delivers them. -/
abbrev FsPath := String

/-- The filesystem visible to the process: each path may hold file
contents, and each path either is or is not writable. -/
structure FS where
  contents : FsPath → Option Bytes
  writable : FsPath → Bool

/-- Modelled from the spec: the external image library (PIL in the source)
is "an opaque external collaborator". `decode` is the content-sniffing
decoder behind `Image.open`, `encode` is the encoder behind `img.save`
taking an explicit format name, `formatFromExt` is the library's
extension-based format inference (available but unused by this program,
which always passes the format explicitly), and `missingMsg` /
`unwritableMsg` are the textual descriptions the library attaches to a
missing input file and an unwritable output path. -/
structure ImageLib (Img : Type) where
  decode : Bytes → Except String Img
  encode : String → Img → Bytes
  formatFromExt : FsPath → String
  missingMsg : FsPath → String
  unwritableMsg : FsPath → String

/-- `Image.open(input_path)`: look the path up on the filesystem; a missing
file raises the library's missing-file error, otherwise the bytes are
decoded (which may itself fail on corrupt or unsupported content). -/
def openImage (lib : ImageLib Img) (fs : FS) (p : FsPath) : Except String Img :=
  match fs.contents p with
  | none => Except.error (lib.missingMsg p)
  | some bs => lib.decode bs

/-- `img.save(output_path, fmt)`: if the output path is writable, replace
its contents with the encoding of the image in the explicitly requested
format; otherwise raise the library's unwritable-path error. -/
def saveImage (lib : ImageLib Img) (fs : FS) (p : FsPath) (fmt : String)
    (img : Img) : Except String FS :=
  if fs.writable p then
    Except.ok ⟨fun q => if q = p then some (lib.encode fmt img) else fs.contents q,
      fs.writable⟩
  else
    Except.error (lib.unwritableMsg p)

/-- The body of the `try` block in `convert_bmp.py` lines 12-13:
`Image.open(input_path)` followed by `img.save(output_path, 'PNG')`. -/
def tryConvert (lib : ImageLib Img) (fs : FS) (input_path output_path : FsPath) :
    Except String FS :=
  match openImage lib fs input_path with
  | Except.error e => Except.error e
  | Except.ok img => saveImage lib fs output_path "PNG" img

/-- The observable outcome of one run of the program: the lines printed to
standard output, the process exit code, the filesystem after the run, and
the paths accessed for reading and for writing. -/
structure RunResult where
  stdout : List String
  exitCode : Nat
  fs : FS
  reads : List FsPath
  writes : List FsPath

/-- The usage line printed by `convert_bmp.py` line 5. -/
def usageLine : String := "Usage: python convert_bmp.py input.bmp output.png"

/-- The whole program `convert_bmp.py`. `argv` is `sys.argv`, program name
included, so the source's `len(sys.argv) != 3` check is the match on a
three-element list. On the wrong argument count the usage line is printed
and the process exits with code 1 before any file access. Otherwise the
`try` block opens the input and saves it as PNG: an error in either step is
caught, printed as `Error: <description>`, and the process exits with code
1; on success the confirmation line is printed and the process exits with
code 0. -/
def convert_bmp (lib : ImageLib Img) (argv : List String) (fs : FS) : RunResult :=
  match argv with
  | [_prog, input_path, output_path] =>
    match openImage lib fs input_path with
    | Except.error e => ⟨["Error: " ++ e], 1, fs, [input_path], []⟩
    | Except.ok img =>
      match saveImage lib fs output_path "PNG" img with
      | Except.error e => ⟨["Error: " ++ e], 1, fs, [input_path], [output_path]⟩
      | Except.ok fs' =>
        ⟨["Converted " ++ input_path ++ " to " ++ output_path], 0, fs',
          [input_path], [output_path]⟩
  | _ => ⟨[usageLine], 1, fs, [], []⟩

/-- A small concrete image library used to exercise the model on concrete
runs: a file decodes iff its first byte is 66 (the BMP magic byte `B`),
and encoding prepends that byte, so decode after encode is the identity. -/
def toyLib : ImageLib (List Nat) :=
  ⟨fun bs =>
      match bs with
      | [] => Except.error "cannot identify image file"
      | b :: rest =>
        if b = 66 then Except.ok rest else Except.error "cannot identify image file",
    fun _fmt img => 66 :: img,
    fun _p => "PNG",
    fun p => "No such file or directory: " ++ p,
    fun p => "Permission denied: " ++ p⟩

/-- A small concrete filesystem holding one decodable file at `in.bmp`,
with `out.png` as the only writable path. -/
def toyFS : FS :=
  ⟨fun p => if p = "in.bmp" then some [66, 7, 7] else none,
    fun p => p == "out.png"⟩

/-- C1: with exactly two arguments, when the decode of the input and the
PNG encode to the output both succeed, the program prints exactly the line
`Converted <input_path> to <output_path>` (the two argv strings
interpolated verbatim) and terminates with exit code 0. -/
theorem c1_success_line {Img : Type} (lib : ImageLib Img)
    (prog input_path output_path : FsPath) (fs : FS) (img : Img)
    (hopen : openImage lib fs input_path = Except.ok img)
    (hsave : ∃ fs2, saveImage lib fs output_path "PNG" img = Except.ok fs2) :
    (convert_bmp lib [prog, input_path, output_path] fs).stdout
        = ["Converted " ++ input_path ++ " to " ++ output_path]
      ∧ (convert_bmp lib [prog, input_path, output_path] fs).exitCode = 0 := by
  obtain ⟨fs2, hsave⟩ := hsave
  simp [convert_bmp, hopen, hsave]

/-- Witness for C1: the concrete successful run `convert_bmp.py in.bmp
out.png` on the toy filesystem. -/
theorem c1_success_line_witness :
    (convert_bmp toyLib ["convert_bmp.py", "in.bmp", "out.png"] toyFS).stdout
        = ["Converted in.bmp to out.png"]
      ∧ (convert_bmp toyLib ["convert_bmp.py", "in.bmp", "out.png"] toyFS).exitCode = 0 :=
  c1_success_line toyLib "convert_bmp.py" "in.bmp" "out.png" toyFS [7, 7]
    rfl ⟨_, rfl⟩

/-- C2: with any argument count other than exactly two (beyond the program
name), the program prints the usage line, exits with code 1, and performs
no file access: the filesystem is unchanged and no path is read or
written. -/
theorem c2_usage {Img : Type} (lib : ImageLib Img) (argv : List String) (fs : FS)
    (h : argv.length ≠ 3) :
    (convert_bmp lib argv fs).stdout = [usageLine]
      ∧ (convert_bmp lib argv fs).exitCode = 1
      ∧ (convert_bmp lib argv fs).fs = fs
      ∧ (convert_bmp lib argv fs).reads = []
      ∧ (convert_bmp lib argv fs).writes = [] := by
  match argv with
  | [] => exact ⟨rfl, rfl, rfl, rfl, rfl⟩
  | [_] => exact ⟨rfl, rfl, rfl, rfl, rfl⟩
  | [_, _] => exact ⟨rfl, rfl, rfl, rfl, rfl⟩
  | [_, _, _] => exact absurd rfl h
  | _ :: _ :: _ :: _ :: _ => exact ⟨rfl, rfl, rfl, rfl, rfl⟩

/-- Witness for C2: the concrete run with a single argument. -/
theorem c2_usage_witness :
    (convert_bmp toyLib ["convert_bmp.py", "in.bmp"] toyFS).stdout = [usageLine]
      ∧ (convert_bmp toyLib ["convert_bmp.py", "in.bmp"] toyFS).exitCode = 1
      ∧ (convert_bmp toyLib ["convert_bmp.py", "in.bmp"] toyFS).fs = toyFS
      ∧ (convert_bmp toyLib ["convert_bmp.py", "in.bmp"] toyFS).reads = []
      ∧ (convert_bmp toyLib ["convert_bmp.py", "in.bmp"] toyFS).writes = [] :=
  c2_usage toyLib ["convert_bmp.py", "in.bmp"] toyFS (by decide)

/-- Helper: when `saveImage` succeeds, the resulting filesystem holds the
encoding of the image, in the requested format, at the output path. -/
theorem saveImage_contents {Img : Type} (lib : ImageLib Img) (fs : FS) (p : FsPath)
    (fmt : String) (img : Img) (fs2 : FS)
    (h : saveImage lib fs p fmt img = Except.ok fs2) :
    fs2.contents p = some (lib.encode fmt img) := by
  unfold saveImage at h
  split at h
  · injection h with h2
    subst h2
    simp
  · simp at h

/-- C3: with exactly two arguments, any failure raised during the
decode-then-encode step is caught, the program prints the single line
`Error: <description>` with the failure's textual description verbatim,
and terminates with exit code 1. -/
theorem c3_error_line {Img : Type} (lib : ImageLib Img)
    (prog input_path output_path : FsPath) (fs : FS) (e : String)
    (h : tryConvert lib fs input_path output_path = Except.error e) :
    (convert_bmp lib [prog, input_path, output_path] fs).stdout = ["Error: " ++ e]
      ∧ (convert_bmp lib [prog, input_path, output_path] fs).exitCode = 1 := by
  unfold tryConvert at h
  cases hopen : openImage lib fs input_path with
  | error e2 =>
      rw [hopen] at h
      injection h with h2
      subst h2
      simp [convert_bmp, hopen]
  | ok img =>
      rw [hopen] at h
      change saveImage lib fs output_path "PNG" img = Except.error e at h
      simp [convert_bmp, hopen, h]

/-- Witness for C3: the concrete run on a missing input file. -/
theorem c3_error_line_witness :
    (convert_bmp toyLib ["convert_bmp.py", "nope.bmp", "out.png"] toyFS).stdout
        = ["Error: " ++ "No such file or directory: nope.bmp"]
      ∧ (convert_bmp toyLib ["convert_bmp.py", "nope.bmp", "out.png"] toyFS).exitCode = 1 :=
  c3_error_line toyLib "convert_bmp.py" "nope.bmp" "out.png" toyFS
    "No such file or directory: nope.bmp" rfl

/-- C4: with exactly two arguments and a non-existent input path, the
program prints a line starting with `Error: `, exits with code 1, and
leaves the filesystem (in particular the output path) unchanged: the
encode step is never reached. -/
theorem c4_missing_input {Img : Type} (lib : ImageLib Img)
    (prog input_path output_path : FsPath) (fs : FS)
    (h : fs.contents input_path = none) :
    (∃ d, (convert_bmp lib [prog, input_path, output_path] fs).stdout = ["Error: " ++ d])
      ∧ (convert_bmp lib [prog, input_path, output_path] fs).exitCode = 1
      ∧ (convert_bmp lib [prog, input_path, output_path] fs).fs = fs
      ∧ (convert_bmp lib [prog, input_path, output_path] fs).writes = [] := by
  have hopen : openImage lib fs input_path = Except.error (lib.missingMsg input_path) := by
    unfold openImage
    rw [h]
  exact ⟨⟨lib.missingMsg input_path, by simp [convert_bmp, hopen]⟩,
    by simp [convert_bmp, hopen], by simp [convert_bmp, hopen],
    by simp [convert_bmp, hopen]⟩

/-- Witness for C4: the concrete run on the toy filesystem, which holds no
file at `missing.bmp`. -/
theorem c4_missing_input_witness :
    (∃ d, (convert_bmp toyLib ["convert_bmp.py", "missing.bmp", "out.png"] toyFS).stdout
        = ["Error: " ++ d])
      ∧ (convert_bmp toyLib ["convert_bmp.py", "missing.bmp", "out.png"] toyFS).exitCode = 1
      ∧ (convert_bmp toyLib ["convert_bmp.py", "missing.bmp", "out.png"] toyFS).fs = toyFS
      ∧ (convert_bmp toyLib ["convert_bmp.py", "missing.bmp", "out.png"] toyFS).writes = [] :=
  c4_missing_input toyLib "convert_bmp.py" "missing.bmp" "out.png" toyFS rfl

/-- C5: every invocation, whatever the argument count and whether the
conversion succeeds or fails, prints exactly one line to standard
output. -/
theorem c5_exactly_one_line {Img : Type} (lib : ImageLib Img)
    (argv : List String) (fs : FS) :
    (convert_bmp lib argv fs).stdout.length = 1 := by
  match argv with
  | [] => rfl
  | [_] => rfl
  | [_, _] => rfl
  | [p, i, o] =>
      cases hopen : openImage lib fs i with
      | error e => simp [convert_bmp, hopen]
      | ok img =>
          cases hsave : saveImage lib fs o "PNG" img with
          | error e => simp [convert_bmp, hopen, hsave]
          | ok fs2 => simp [convert_bmp, hopen, hsave]
  | _ :: _ :: _ :: _ :: _ => rfl

/-- C6: two successful runs with the same arguments over the same input
file contents produce output files with equal bytes, hence equal decoded
image content. -/
theorem c6_idempotent {Img : Type} (lib : ImageLib Img) (prog a b : FsPath)
    (fs1 fs2 : FS)
    (hin : fs1.contents a = fs2.contents a)
    (h1 : (convert_bmp lib [prog, a, b] fs1).exitCode = 0)
    (h2 : (convert_bmp lib [prog, a, b] fs2).exitCode = 0) :
    (convert_bmp lib [prog, a, b] fs1).fs.contents b
        = (convert_bmp lib [prog, a, b] fs2).fs.contents b
      ∧ Option.map lib.decode ((convert_bmp lib [prog, a, b] fs1).fs.contents b)
        = Option.map lib.decode ((convert_bmp lib [prog, a, b] fs2).fs.contents b) := by
  have hopen12 : openImage lib fs1 a = openImage lib fs2 a := by
    unfold openImage
    rw [hin]
  cases hopen : openImage lib fs1 a with
  | error e => simp [convert_bmp, hopen] at h1
  | ok img =>
      have hopen2 : openImage lib fs2 a = Except.ok img := hopen12.symm.trans hopen
      cases hs1 : saveImage lib fs1 b "PNG" img with
      | error e => simp [convert_bmp, hopen, hs1] at h1
      | ok fs1' =>
          cases hs2 : saveImage lib fs2 b "PNG" img with
          | error e => simp [convert_bmp, hopen2, hs2] at h2
          | ok fs2' =>
              have e1 : (convert_bmp lib [prog, a, b] fs1).fs = fs1' := by
                simp [convert_bmp, hopen, hs1]
              have e2 : (convert_bmp lib [prog, a, b] fs2).fs = fs2' := by
                simp [convert_bmp, hopen2, hs2]
              have hc1 : fs1'.contents b = some (lib.encode "PNG" img) :=
                saveImage_contents lib fs1 b "PNG" img fs1' hs1
              have hc2 : fs2'.contents b = some (lib.encode "PNG" img) :=
                saveImage_contents lib fs2 b "PNG" img fs2' hs2
              constructor
              · rw [e1, e2, hc1, hc2]
              · rw [e1, e2, hc1, hc2]

/-- Witness for C6: the conversion is run once on the toy filesystem and a
second time on the filesystem the first run produced; the output file
holds the same bytes, hence the same decoded image, after both runs. -/
theorem c6_idempotent_witness :
    (convert_bmp toyLib ["convert_bmp.py", "in.bmp", "out.png"] toyFS).fs.contents "out.png"
        = (convert_bmp toyLib ["convert_bmp.py", "in.bmp", "out.png"]
            (convert_bmp toyLib ["convert_bmp.py", "in.bmp", "out.png"] toyFS).fs).fs.contents
            "out.png"
      ∧ Option.map toyLib.decode
          ((convert_bmp toyLib ["convert_bmp.py", "in.bmp", "out.png"] toyFS).fs.contents
            "out.png")
        = Option.map toyLib.decode
            ((convert_bmp toyLib ["convert_bmp.py", "in.bmp", "out.png"]
                (convert_bmp toyLib ["convert_bmp.py", "in.bmp", "out.png"] toyFS).fs).fs.contents
              "out.png") :=
  c6_idempotent toyLib "convert_bmp.py" "in.bmp" "out.png" toyFS
    (convert_bmp toyLib ["convert_bmp.py", "in.bmp", "out.png"] toyFS).fs rfl rfl rfl

/-- C7: on a decodable input file and a writable output path, the run
succeeds, prints `Converted A to B`, exits with code 0, and (the external
PNG encoding being lossless, as the spec's glossary states) the output
file decodes to exactly the pixels the input decoded to. -/
theorem c7_roundtrip {Img : Type} (lib : ImageLib Img) (prog a b : FsPath)
    (fs : FS) (bs : Bytes) (img : Img)
    (hlossless : ∀ i : Img, lib.decode (lib.encode "PNG" i) = Except.ok i)
    (hA : fs.contents a = some bs)
    (hdec : lib.decode bs = Except.ok img)
    (hW : fs.writable b = true) :
    (convert_bmp lib [prog, a, b] fs).stdout = ["Converted " ++ a ++ " to " ++ b]
      ∧ (convert_bmp lib [prog, a, b] fs).exitCode = 0
      ∧ ∃ out, (convert_bmp lib [prog, a, b] fs).fs.contents b = some out
          ∧ lib.decode out = Except.ok img := by
  have hopen : openImage lib fs a = Except.ok img := by
    unfold openImage
    rw [hA]
    exact hdec
  have hsave : saveImage lib fs b "PNG" img
      = Except.ok ⟨fun q => if q = b then some (lib.encode "PNG" img) else fs.contents q,
          fs.writable⟩ := by
    unfold saveImage
    rw [if_pos hW]
  refine ⟨?_, ?_, ⟨lib.encode "PNG" img, ?_, hlossless img⟩⟩
  · simp [convert_bmp, hopen, hsave]
  · simp [convert_bmp, hopen, hsave]
  · simp [convert_bmp, hopen, hsave]

/-- Witness for C7: the concrete successful run on the toy filesystem; the
toy library's decode inverts its encode, so the hypotheses hold. -/
theorem c7_roundtrip_witness :
    (convert_bmp toyLib ["convert_bmp.py", "in.bmp", "out.png"] toyFS).stdout
        = ["Converted " ++ "in.bmp" ++ " to " ++ "out.png"]
      ∧ (convert_bmp toyLib ["convert_bmp.py", "in.bmp", "out.png"] toyFS).exitCode = 0
      ∧ ∃ out,
          (convert_bmp toyLib ["convert_bmp.py", "in.bmp", "out.png"] toyFS).fs.contents
              "out.png" = some out
            ∧ toyLib.decode out = Except.ok [7, 7] :=
  c7_roundtrip toyLib "convert_bmp.py" "in.bmp" "out.png" toyFS [66, 7, 7] [7, 7]
    (fun _ => rfl) rfl rfl rfl

/-- C9: whenever the encode step is reached, the output is written in PNG
format unconditionally, because the format string is passed explicitly to
the save call: the written bytes are the PNG encoding for every output
path (whatever its extension), and replacing the library's
extension-based format inference by any other function changes nothing. -/
theorem c9_png_unconditional {Img : Type} (lib : ImageLib Img) (prog a b : FsPath)
    (fs : FS) (img : Img) (g : FsPath → String)
    (hopen : openImage lib fs a = Except.ok img)
    (hW : fs.writable b = true) :
    (convert_bmp lib [prog, a, b] fs).fs.contents b = some (lib.encode "PNG" img)
      ∧ (convert_bmp (⟨lib.decode, lib.encode, g, lib.missingMsg, lib.unwritableMsg⟩ :
            ImageLib Img) [prog, a, b] fs).fs.contents b
          = some (lib.encode "PNG" img) := by
  have hsave : saveImage lib fs b "PNG" img
      = Except.ok ⟨fun q => if q = b then some (lib.encode "PNG" img) else fs.contents q,
          fs.writable⟩ := by
    unfold saveImage
    rw [if_pos hW]
  have hopen2 : openImage (⟨lib.decode, lib.encode, g, lib.missingMsg,
      lib.unwritableMsg⟩ : ImageLib Img) fs a = Except.ok img := hopen
  have hsave2 : saveImage (⟨lib.decode, lib.encode, g, lib.missingMsg,
        lib.unwritableMsg⟩ : ImageLib Img) fs b "PNG" img
      = Except.ok ⟨fun q => if q = b then some (lib.encode "PNG" img) else fs.contents q,
          fs.writable⟩ := by
    unfold saveImage
    rw [if_pos hW]
  constructor
  · simp [convert_bmp, hopen, hsave]
  · simp [convert_bmp, hopen2, hsave2]

/-- Witness for C9: a concrete run writing to a path with a `.jpg`
extension still stores the PNG encoding, and an extension-inference
function that always answers JPEG is irrelevant. -/
theorem c9_png_unconditional_witness :
    (convert_bmp toyLib ["convert_bmp.py", "in.bmp", "out.jpg"]
        (⟨toyFS.contents, fun p => p == "out.jpg"⟩ : FS)).fs.contents "out.jpg"
        = some (toyLib.encode "PNG" [7, 7])
      ∧ (convert_bmp (⟨toyLib.decode, toyLib.encode, fun _ => "JPEG", toyLib.missingMsg,
            toyLib.unwritableMsg⟩ : ImageLib (List Nat))
          ["convert_bmp.py", "in.bmp", "out.jpg"]
          (⟨toyFS.contents, fun p => p == "out.jpg"⟩ : FS)).fs.contents "out.jpg"
          = some (toyLib.encode "PNG" [7, 7]) :=
  c9_png_unconditional toyLib "convert_bmp.py" "in.bmp" "out.jpg"
    (⟨toyFS.contents, fun p => p == "out.jpg"⟩ : FS) [7, 7] (fun _ => "JPEG") rfl rfl

/-- C10: the run is a deterministic function of the argument vector and
the filesystem: two runs with equal argv and equal filesystem state print
the same line, exit with the same code, touch the same paths, and leave
the same filesystem. -/
theorem c10_deterministic {Img : Type} (lib : ImageLib Img)
    (argv argv2 : List String) (fs fs2 : FS)
    (hargv : argv = argv2) (hfs : fs = fs2) :
    (convert_bmp lib argv fs).stdout = (convert_bmp lib argv2 fs2).stdout
      ∧ (convert_bmp lib argv fs).exitCode = (convert_bmp lib argv2 fs2).exitCode
      ∧ (convert_bmp lib argv fs).fs = (convert_bmp lib argv2 fs2).fs
      ∧ (convert_bmp lib argv fs).reads = (convert_bmp lib argv2 fs2).reads
      ∧ (convert_bmp lib argv fs).writes = (convert_bmp lib argv2 fs2).writes := by
  subst hargv
  subst hfs
  exact ⟨rfl, rfl, rfl, rfl, rfl⟩

/-- Witness for C10: two concrete runs with identical arguments and
identical filesystem state coincide in every observable. -/
theorem c10_deterministic_witness :
    (convert_bmp toyLib ["convert_bmp.py", "in.bmp", "out.png"] toyFS).stdout
        = (convert_bmp toyLib ["convert_bmp.py", "in.bmp", "out.png"] toyFS).stdout
      ∧ (convert_bmp toyLib ["convert_bmp.py", "in.bmp", "out.png"] toyFS).exitCode
        = (convert_bmp toyLib ["convert_bmp.py", "in.bmp", "out.png"] toyFS).exitCode
      ∧ (convert_bmp toyLib ["convert_bmp.py", "in.bmp", "out.png"] toyFS).fs
        = (convert_bmp toyLib ["convert_bmp.py", "in.bmp", "out.png"] toyFS).fs
      ∧ (convert_bmp toyLib ["convert_bmp.py", "in.bmp", "out.png"] toyFS).reads
        = (convert_bmp toyLib ["convert_bmp.py", "in.bmp", "out.png"] toyFS).reads
      ∧ (convert_bmp toyLib ["convert_bmp.py", "in.bmp", "out.png"] toyFS).writes
        = (convert_bmp toyLib ["convert_bmp.py", "in.bmp", "out.png"] toyFS).writes :=
  c10_deterministic toyLib ["convert_bmp.py", "in.bmp", "out.png"]
    ["convert_bmp.py", "in.bmp", "out.png"] toyFS toyFS rfl rfl

end ConvertBmp
